import Mathlib

/-!
Verification of the filter-and-aggregation pipeline of `sales_dashboard.py`.

The script loads a sales table, applies a fixed sequence of sidebar filters
(date range on `Order Date`, seven categorical multiselects, four numeric
range sliders) to a working copy `df_filtered`, and computes KPIs and
grouped chart inputs from the result.  Dataframes are modelled as `List`s
of records; pandas timestamps as integers (only their total order matters);
float columns as rationals; `Series.unique()` as first-occurrence
deduplication; `groupby(key)[col].sum()` as sorted distinct keys paired
with sums over the matching rows.
-/

namespace SalesDashboard

/-- Timestamps (`pd.to_datetime` results): only their total order is used. -/
abbrev Date := Int

/-- One row of the loaded dataframe, with the columns the script expects
(`Row ID` … `Profit`); `Order Date` and `Ship Date` already parsed. -/
structure Record where
  row_id : Int
  order_id : String
  order_date : Date
  ship_date : Date
  ship_mode : String
  customer_id : String
  customer_name : String
  segment : String
  country : String
  city : String
  state : String
  postal_code : String
  region : String
  product_id : String
  category : String
  sub_category : String
  product_name : String
  sales : Rat
  quantity : Int
  discount : Rat
  profit : Rat
deriving DecidableEq

/-- The sidebar selections for one filter-evaluation cycle: the order-date
slider, the seven multiselects, and the four numeric range sliders. -/
structure FilterState where
  dateRange : Date × Date
  regions : List String
  categories : List String
  subCategories : List String
  segments : List String
  shipModes : List String
  states : List String
  cities : List String
  salesRange : Rat × Rat
  quantityRange : Int × Int
  discountRange : Rat × Rat
  profitRange : Rat × Rat
deriving DecidableEq

/-- Helper for `pdUnique`: keep the values not yet `seen`, first
occurrence first. -/
def pdUniqueAux {α : Type} [DecidableEq α] (seen : List α) : List α → List α
  | [] => []
  | a :: t =>
    if a ∈ seen then pdUniqueAux seen t else a :: pdUniqueAux (a :: seen) t

/-- `Series.unique()`: distinct values in order of first appearance. -/
def pdUnique {α : Type} [DecidableEq α] (l : List α) : List α :=
  pdUniqueAux [] l

/-- `Series.min()`: `none` on an empty column. -/
def colMin {α : Type} [LinearOrder α] : List α → Option α
  | [] => none
  | a :: t =>
    some (match colMin t with
      | none => a
      | some m => min a m)

/-- `Series.max()`: `none` on an empty column. -/
def colMax {α : Type} [LinearOrder α] : List α → Option α
  | [] => none
  | a :: t =>
    some (match colMax t with
      | none => a
      | some m => max a m)

/-- One slider stage, e.g.
`df_filtered[(df_filtered[c] >= lo) & (df_filtered[c] <= hi)]`
(inclusive bounds on column `f`). -/
def rangeFilter {α : Type} [LinearOrder α] (f : Record → α) (lo hi : α)
    (l : List Record) : List Record :=
  l.filter fun r => decide (lo ≤ f r) && decide (f r ≤ hi)

/-- One multiselect stage:
`if selected: df_filtered = df_filtered[df_filtered[c].isin(selected)]`.
An empty selection leaves the view unchanged (the `if` is skipped). -/
def multiselectFilter (sel : List String) (f : Record → String)
    (l : List Record) : List Record :=
  if sel.isEmpty then l else l.filter fun r => decide (f r ∈ sel)

/-- `df_filtered` after the order-date slider (line 76). -/
def viewAfterDate (df : List Record) (s : FilterState) : List Record :=
  rangeFilter Record.order_date s.dateRange.1 s.dateRange.2 df

/-- `df_filtered` after the Region multiselect (lines 91-92). -/
def viewAfterRegion (df : List Record) (s : FilterState) : List Record :=
  multiselectFilter s.regions Record.region (viewAfterDate df s)

/-- `df_filtered` after the Category multiselect (lines 101-102). -/
def viewAfterCategory (df : List Record) (s : FilterState) : List Record :=
  multiselectFilter s.categories Record.category (viewAfterRegion df s)

/-- `available_sub_categories = df_filtered['Sub-Category'].unique()`
(line 105): options for the cascading Sub-Category widget, computed from
the view after the date, region and category filters. -/
def availableSubCategories (df : List Record) (s : FilterState) : List String :=
  pdUnique ((viewAfterCategory df s).map Record.sub_category)

/-- `df_filtered` after the Sub-Category multiselect (lines 111-112). -/
def viewAfterSubCategory (df : List Record) (s : FilterState) : List Record :=
  multiselectFilter s.subCategories Record.sub_category (viewAfterCategory df s)

/-- `df_filtered` after the Segment multiselect (lines 128-129). -/
def viewAfterSegment (df : List Record) (s : FilterState) : List Record :=
  multiselectFilter s.segments Record.segment (viewAfterSubCategory df s)

/-- `df_filtered` after the Ship Mode multiselect (lines 138-139). -/
def viewAfterShipMode (df : List Record) (s : FilterState) : List Record :=
  multiselectFilter s.shipModes Record.ship_mode (viewAfterSegment df s)

/-- `df_filtered` after the State multiselect (lines 148-149). -/
def viewAfterState (df : List Record) (s : FilterState) : List Record :=
  multiselectFilter s.states Record.state (viewAfterShipMode df s)

/-- `available_cities = df_filtered['City'].unique()` (line 152): options
for the cascading City widget, computed from the view after every filter up
to and including State. -/
def availableCities (df : List Record) (s : FilterState) : List String :=
  pdUnique ((viewAfterState df s).map Record.city)

/-- `df_filtered` after the City multiselect (lines 158-159). -/
def viewAfterCity (df : List Record) (s : FilterState) : List Record :=
  multiselectFilter s.cities Record.city (viewAfterState df s)

/-- `df_filtered` after the Sales slider (line 192). -/
def viewAfterSales (df : List Record) (s : FilterState) : List Record :=
  rangeFilter Record.sales s.salesRange.1 s.salesRange.2 (viewAfterCity df s)

/-- `df_filtered` after the Quantity slider (line 201). -/
def viewAfterQuantity (df : List Record) (s : FilterState) : List Record :=
  rangeFilter Record.quantity s.quantityRange.1 s.quantityRange.2 (viewAfterSales df s)

/-- `df_filtered` after the Discount slider (line 210). -/
def viewAfterDiscount (df : List Record) (s : FilterState) : List Record :=
  rangeFilter Record.discount s.discountRange.1 s.discountRange.2 (viewAfterQuantity df s)

/-- The final `df_filtered` (after the Profit slider, line 219): the full
filter pipeline applied to the loaded dataframe `df`. -/
def applyFilters (df : List Record) (s : FilterState) : List Record :=
  rangeFilter Record.profit s.profitRange.1 s.profitRange.2 (viewAfterDiscount df s)

/-- The same pipeline with the Region stage deleted (every other stage as in
`applyFilters`): the comparison pipeline for the empty-Region-selection law. -/
def applyFiltersNoRegion (df : List Record) (s : FilterState) : List Record :=
  rangeFilter Record.profit s.profitRange.1 s.profitRange.2
    (rangeFilter Record.discount s.discountRange.1 s.discountRange.2
      (rangeFilter Record.quantity s.quantityRange.1 s.quantityRange.2
        (rangeFilter Record.sales s.salesRange.1 s.salesRange.2
          (multiselectFilter s.cities Record.city
            (multiselectFilter s.states Record.state
              (multiselectFilter s.shipModes Record.ship_mode
                (multiselectFilter s.segments Record.segment
                  (multiselectFilter s.subCategories Record.sub_category
                    (multiselectFilter s.categories Record.category
                      (rangeFilter Record.order_date s.dateRange.1 s.dateRange.2 df))))))))))

/-- The identity filter state for a dataframe `df`: the slider values and
multiselect defaults the sidebar presents before the user changes anything —
date range `df['Order Date'].min()/.max()` (lines 63-64), every multiselect
equal to its full option set (`unique()` columns, lines 85-156), every
numeric range equal to the column's overall min/max (lines 173-176). -/
def fullState (df : List Record) : FilterState where
  dateRange := ((colMin (df.map Record.order_date)).getD 0,
                (colMax (df.map Record.order_date)).getD 0)
  regions := pdUnique (df.map Record.region)
  categories := pdUnique (df.map Record.category)
  subCategories := pdUnique (df.map Record.sub_category)
  segments := pdUnique (df.map Record.segment)
  shipModes := pdUnique (df.map Record.ship_mode)
  states := pdUnique (df.map Record.state)
  cities := pdUnique (df.map Record.city)
  salesRange := ((colMin (df.map Record.sales)).getD 0,
                 (colMax (df.map Record.sales)).getD 0)
  quantityRange := ((colMin (df.map Record.quantity)).getD 0,
                    (colMax (df.map Record.quantity)).getD 0)
  discountRange := ((colMin (df.map Record.discount)).getD 0,
                    (colMax (df.map Record.discount)).getD 0)
  profitRange := ((colMin (df.map Record.profit)).getD 0,
                  (colMax (df.map Record.profit)).getD 0)

/-- `s'` is a narrower filter state than `s`: each selected set is a subset
of the corresponding set in `s`, each date/numeric interval is contained in
the corresponding interval of `s`. -/
def Narrower (s' s : FilterState) : Prop :=
  (s.dateRange.1 ≤ s'.dateRange.1 ∧ s'.dateRange.2 ≤ s.dateRange.2) ∧
  (∀ x ∈ s'.regions, x ∈ s.regions) ∧
  (∀ x ∈ s'.categories, x ∈ s.categories) ∧
  (∀ x ∈ s'.subCategories, x ∈ s.subCategories) ∧
  (∀ x ∈ s'.segments, x ∈ s.segments) ∧
  (∀ x ∈ s'.shipModes, x ∈ s.shipModes) ∧
  (∀ x ∈ s'.states, x ∈ s.states) ∧
  (∀ x ∈ s'.cities, x ∈ s.cities) ∧
  (s.salesRange.1 ≤ s'.salesRange.1 ∧ s'.salesRange.2 ≤ s.salesRange.2) ∧
  (s.quantityRange.1 ≤ s'.quantityRange.1 ∧ s'.quantityRange.2 ≤ s.quantityRange.2) ∧
  (s.discountRange.1 ≤ s'.discountRange.1 ∧ s'.discountRange.2 ≤ s.discountRange.2) ∧
  (s.profitRange.1 ≤ s'.profitRange.1 ∧ s'.profitRange.2 ≤ s.profitRange.2)

instance (s' s : FilterState) : Decidable (Narrower s' s) := by
  unfold Narrower
  infer_instance

/-- Every multiselect of `s` has at least one selected value. -/
def AllSelectionsNonempty (s : FilterState) : Prop :=
  s.regions ≠ [] ∧ s.categories ≠ [] ∧ s.subCategories ≠ [] ∧
  s.segments ≠ [] ∧ s.shipModes ≠ [] ∧ s.states ≠ [] ∧ s.cities ≠ []

instance (s : FilterState) : Decidable (AllSelectionsNonempty s) := by
  unfold AllSelectionsNonempty
  infer_instance

/-- `total_sales = df_filtered['Sales'].sum()` (line 233). -/
def total_sales (view : List Record) : Rat :=
  (view.map Record.sales).sum

/-- `total_profit = df_filtered['Profit'].sum()` (line 234). -/
def total_profit (view : List Record) : Rat :=
  (view.map Record.profit).sum

/-- `total_quantity = df_filtered['Quantity'].sum()` (line 235). -/
def total_quantity (view : List Record) : Int :=
  (view.map Record.quantity).sum

/-- Lexicographic comparison of character lists by code point: the order in
which pandas sorts string group keys. -/
def strLeAux : List Char → List Char → Bool
  | [], _ => true
  | _ :: _, [] => false
  | a :: as, b :: bs =>
    if a.val.toNat < b.val.toNat then true
    else if b.val.toNat < a.val.toNat then false
    else strLeAux as bs

/-- Lexicographic order on strings, by code point. -/
def strLe (s t : String) : Bool := strLeAux s.data t.data

/-- `view.groupby(key)[col].sum().reset_index()`: one row per distinct key
(pandas sorts group keys ascending), paired with the sum of `val` over the
rows having that key. -/
def groupBySum (view : List Record) (key : Record → String) (val : Record → Rat) :
    List (String × Rat) :=
  (List.insertionSort (fun a b => strLe a b = true) (pdUnique (view.map key))).map
    fun k => (k, ((view.filter fun r => decide (key r = k)).map val).sum)

/-- The ordering used by `.sort_values(by=col, ascending=False)`:
row `a` precedes row `b` when `a`'s summed value is at least `b`'s. -/
def bySalesDesc (a b : String × Rat) : Prop := b.2 ≤ a.2

instance : DecidableRel bySalesDesc := fun a b =>
  inferInstanceAs (Decidable (b.2 ≤ a.2))

instance : IsTotal (String × Rat) bySalesDesc := ⟨fun a b => le_total b.2 a.2⟩

instance : IsTrans (String × Rat) bySalesDesc :=
  ⟨fun _ _ _ hab hbc => le_trans hbc hab⟩

/-- `.sort_values(by=col, ascending=False)` on a grouped-sum table. -/
def sortValuesDesc (l : List (String × Rat)) : List (String × Rat) :=
  List.insertionSort bySalesDesc l

/-- `sales_by_category` (line 266): group by Category, sum Sales, sort
descending by the summed Sales. -/
def sales_by_category (view : List Record) : List (String × Rat) :=
  sortValuesDesc (groupBySum view Record.category Record.sales)

/-- `sales_by_state` (line 334): group by State, sum Sales, sort descending. -/
def sales_by_state (view : List Record) : List (String × Rat) :=
  sortValuesDesc (groupBySum view Record.state Record.sales)

/-- `sales_by_state.head(20)` (line 336): the chart input, truncated to the
top 20 states. -/
def sales_by_state_top20 (view : List Record) : List (String × Rat) :=
  (sales_by_state view).take 20

/-- One row as `pd.read_csv` delivers it: the two date columns still raw
strings, everything else already typed. -/
structure RawRecord where
  row_id : Int
  order_id : String
  order_date_raw : String
  ship_date_raw : String
  ship_mode : String
  customer_id : String
  customer_name : String
  segment : String
  country : String
  city : String
  state : String
  postal_code : String
  region : String
  product_id : String
  category : String
  sub_category : String
  product_name : String
  sales : Rat
  quantity : Int
  discount : Rat
  profit : Rat
deriving DecidableEq

/-- One row after `pd.to_datetime(col, errors='coerce')` on both date
columns: an unparseable date is `none` (pandas `NaT`). -/
structure CoercedRecord where
  row_id : Int
  order_id : String
  order_date : Option Date
  ship_date : Option Date
  ship_mode : String
  customer_id : String
  customer_name : String
  segment : String
  country : String
  city : String
  state : String
  postal_code : String
  region : String
  product_id : String
  category : String
  sub_category : String
  product_name : String
  sales : Rat
  quantity : Int
  discount : Rat
  profit : Rat
deriving DecidableEq

/-- `pd.to_datetime(col, errors='coerce')` applied to the two date columns
of one row (lines 23-24), for an arbitrary date parser `parse`. -/
def coerceRow (parse : String → Option Date) (r : RawRecord) : CoercedRecord where
  row_id := r.row_id
  order_id := r.order_id
  order_date := parse r.order_date_raw
  ship_date := parse r.ship_date_raw
  ship_mode := r.ship_mode
  customer_id := r.customer_id
  customer_name := r.customer_name
  segment := r.segment
  country := r.country
  city := r.city
  state := r.state
  postal_code := r.postal_code
  region := r.region
  product_id := r.product_id
  category := r.category
  sub_category := r.sub_category
  product_name := r.product_name
  sales := r.sales
  quantity := r.quantity
  discount := r.discount
  profit := r.profit

/-- Lines 23-24 over the whole dataframe. -/
def coerceDates (parse : String → Option Date) (rows : List RawRecord) :
    List CoercedRecord :=
  rows.map (coerceRow parse)

/-- `df.dropna(subset=['Order Date', 'Ship Date'])` (line 26): keep exactly
the rows whose two date columns are both non-`NaT`. -/
def dropnaDates (rows : List CoercedRecord) : List CoercedRecord :=
  rows.filter fun r => r.order_date.isSome && r.ship_date.isSome

/-- The row-cleaning part of `load_data` (lines 20-28): coerce the two date
columns, then drop the rows where either failed to parse. -/
def load_data (parse : String → Option Date) (rows : List RawRecord) :
    List CoercedRecord :=
  dropnaDates (coerceDates parse rows)

/-- How the attempt to read the CSV can go: the file is missing
(`FileNotFoundError`), reading or cleaning raises some other exception
(malformed input, message `msg`), or it yields rows. -/
inductive LoadSource where
  | missing : LoadSource
  | malformed (msg : String) : LoadSource
  | ok (rows : List RawRecord) : LoadSource
deriving DecidableEq

/-- What a call of `load_data` leaves behind: the returned value (`none`
models Python `None`) and the `st.error` message shown, if any. -/
structure LoadOutcome where
  result : Option (List CoercedRecord)
  errorShown : Option String
deriving DecidableEq

/-- The whole `load_data` function (lines 17-33) including its `except`
arms: `FileNotFoundError` returns `None` showing nothing; any other
exception shows an `st.error` message and returns `None`. -/
def load_data_full (parse : String → Option Date) : LoadSource → LoadOutcome
  | .missing => { result := none, errorShown := none }
  | .malformed msg =>
    { result := none
      errorShown := some ("Error loading data: " ++ msg ++
        ". Please check the file path and format.") }
  | .ok rows => { result := some (load_data parse rows), errorShown := none }

/-! ### Concrete fixtures for counterexamples and witnesses -/

/-- A single concrete sales record used in counterexamples and witnesses. -/
def baseRecord : Record where
  row_id := 1
  order_id := "CA-0001"
  order_date := 0
  ship_date := 0
  ship_mode := "Standard Class"
  customer_id := "C-1"
  customer_name := "Alice"
  segment := "Consumer"
  country := "United States"
  city := "Akron"
  state := "Ohio"
  postal_code := "44101"
  region := "East"
  product_id := "P-1"
  category := "Furniture"
  sub_category := "Chairs"
  product_name := "Chair"
  sales := 1
  quantity := 1
  discount := 0
  profit := 1

/-- A filter state whose ranges and selections all accept `baseRecord`,
except that the Region multiselect is left empty. -/
def sRegionEmpty : FilterState where
  dateRange := (0, 0)
  regions := []
  categories := ["Furniture"]
  subCategories := ["Chairs"]
  segments := ["Consumer"]
  shipModes := ["Standard Class"]
  states := ["Ohio"]
  cities := ["Akron"]
  salesRange := (0, 10)
  quantityRange := (0, 10)
  discountRange := (0, 1)
  profitRange := (-10, 10)

/-- Like `sRegionEmpty` but with Region = {West} (excludes `baseRecord`). -/
def sRegionWest : FilterState :=
  { sRegionEmpty with regions := ["West"] }

/-- Like `sRegionEmpty` but with Region = {East}: every selection nonempty
and every stage accepts `baseRecord`. -/
def sRegionEast : FilterState :=
  { sRegionEmpty with regions := ["East"] }

/-- Like `sRegionEast` but with an empty Category selection. -/
def sCatEmpty : FilterState :=
  { sRegionEast with categories := [] }

/-! ### The claims -/

/-- A record differing from `baseRecord` only in state and sales. -/
def stateRec (nm : String) (s : Rat) : Record :=
  { baseRecord with state := nm, sales := s }

/-- 25 records with pairwise distinct states and distinct sales values. -/
def view25 : List Record :=
  [stateRec "A" 1, stateRec "B" 2, stateRec "C" 3, stateRec "D" 4,
   stateRec "E" 5, stateRec "F" 6, stateRec "G" 7, stateRec "H" 8,
   stateRec "I" 9, stateRec "J" 10, stateRec "K" 11, stateRec "L" 12,
   stateRec "M" 13, stateRec "N" 14, stateRec "O" 15, stateRec "P" 16,
   stateRec "Q" 17, stateRec "R" 18, stateRec "S" 19, stateRec "T" 20,
   stateRec "U" 21, stateRec "V" 22, stateRec "W" 23, stateRec "X" 24,
   stateRec "Y" 25]

/-! ### Basic lemmas about the dataframe primitives -/

theorem mem_pdUniqueAux {α : Type} [DecidableEq α] {x : α} :
    ∀ {l seen : List α}, x ∈ pdUniqueAux seen l ↔ x ∈ l ∧ x ∉ seen := by
  intro l
  induction l with
  | nil => simp [pdUniqueAux]
  | cons a t ih =>
    intro seen
    by_cases ha : a ∈ seen
    · rw [pdUniqueAux, if_pos ha, ih]
      by_cases hxa : x = a
      · subst hxa
        simp [ha]
      · simp [hxa]
    · rw [pdUniqueAux, if_neg ha]
      by_cases hxa : x = a
      · subst hxa
        simp [ha]
      · simp [ih, hxa]

theorem mem_pdUnique {α : Type} [DecidableEq α] {x : α} {l : List α} :
    x ∈ pdUnique l ↔ x ∈ l := by
  simp [pdUnique, mem_pdUniqueAux]

theorem nodup_pdUniqueAux {α : Type} [DecidableEq α] :
    ∀ {l seen : List α}, (pdUniqueAux seen l).Nodup := by
  intro l
  induction l with
  | nil => simp [pdUniqueAux]
  | cons a t ih =>
    intro seen
    by_cases ha : a ∈ seen
    · rw [pdUniqueAux, if_pos ha]
      exact ih
    · rw [pdUniqueAux, if_neg ha, List.nodup_cons]
      refine ⟨fun hmem => ?_, ih⟩
      exact (mem_pdUniqueAux.mp hmem).2 (List.mem_cons_self a seen)

theorem nodup_pdUnique {α : Type} [DecidableEq α] {l : List α} :
    (pdUnique l).Nodup :=
  nodup_pdUniqueAux

theorem colMin_eq_none {α : Type} [LinearOrder α] {l : List α}
    (h : colMin l = none) : l = [] := by
  cases l with
  | nil => rfl
  | cons a t => simp [colMin] at h

theorem colMin_le {α : Type} [LinearOrder α] :
    ∀ {l : List α} {m : α}, colMin l = some m → ∀ x ∈ l, m ≤ x := by
  intro l
  induction l with
  | nil => simp [colMin]
  | cons a t ih =>
    intro m hm x hx
    rw [colMin] at hm
    cases h' : colMin t with
    | none =>
      have ht : t = [] := colMin_eq_none h'
      subst ht
      simp [h'] at hm
      simp at hx
      simp [hx, ← hm]
    | some mt =>
      simp [h'] at hm
      rcases List.mem_cons.mp hx with rfl | hxt
      · exact hm ▸ min_le_left _ _
      · exact le_trans (hm ▸ min_le_right a mt) (ih h' x hxt)

theorem colMax_eq_none {α : Type} [LinearOrder α] {l : List α}
    (h : colMax l = none) : l = [] := by
  cases l with
  | nil => rfl
  | cons a t => simp [colMax] at h

theorem le_colMax {α : Type} [LinearOrder α] :
    ∀ {l : List α} {m : α}, colMax l = some m → ∀ x ∈ l, x ≤ m := by
  intro l
  induction l with
  | nil => simp [colMax]
  | cons a t ih =>
    intro m hm x hx
    rw [colMax] at hm
    cases h' : colMax t with
    | none =>
      have ht : t = [] := colMax_eq_none h'
      subst ht
      simp [h'] at hm
      simp at hx
      simp [hx, ← hm]
    | some mt =>
      simp [h'] at hm
      rcases List.mem_cons.mp hx with rfl | hxt
      · exact hm ▸ le_max_left _ _
      · exact le_trans (ih h' x hxt) (hm ▸ le_max_right a mt)

theorem colMin_getD_le {α : Type} [LinearOrder α] {l : List α} (d : α) :
    ∀ x ∈ l, (colMin l).getD d ≤ x := by
  intro x hx
  cases h : colMin l with
  | none => rw [colMin_eq_none h] at hx; cases hx
  | some m => simpa using colMin_le h x hx

theorem le_colMax_getD {α : Type} [LinearOrder α] {l : List α} (d : α) :
    ∀ x ∈ l, x ≤ (colMax l).getD d := by
  intro x hx
  cases h : colMax l with
  | none => rw [colMax_eq_none h] at hx; cases hx
  | some m => simpa using le_colMax h x hx

/-! ### Lemmas about the two kinds of filter stage -/

theorem mem_rangeFilter {α : Type} [LinearOrder α] {f : Record → α}
    {lo hi : α} {l : List Record} {x : Record} :
    x ∈ rangeFilter f lo hi l ↔ x ∈ l ∧ lo ≤ f x ∧ f x ≤ hi := by
  simp [rangeFilter, List.mem_filter]

theorem rangeFilter_sublist {α : Type} [LinearOrder α] {f : Record → α}
    {lo hi : α} {l : List Record} : (rangeFilter f lo hi l).Sublist l :=
  List.filter_sublist _

theorem rangeFilter_eq_self {α : Type} [LinearOrder α] {f : Record → α}
    {lo hi : α} {l : List Record} (h : ∀ x ∈ l, lo ≤ f x ∧ f x ≤ hi) :
    rangeFilter f lo hi l = l := by
  refine List.filter_eq_self.mpr fun x hx => ?_
  rw [Bool.and_eq_true, decide_eq_true_eq, decide_eq_true_eq]
  exact h x hx

theorem multiselectFilter_nil {f : Record → String} {l : List Record} :
    multiselectFilter [] f l = l := by
  simp [multiselectFilter]

theorem mem_multiselectFilter {sel : List String} {f : Record → String}
    {l : List Record} {x : Record} :
    x ∈ multiselectFilter sel f l ↔ x ∈ l ∧ (sel = [] ∨ f x ∈ sel) := by
  cases sel with
  | nil => simp [multiselectFilter]
  | cons a t => simp [multiselectFilter, List.mem_filter]

theorem multiselectFilter_sublist {sel : List String} {f : Record → String}
    {l : List Record} : (multiselectFilter sel f l).Sublist l := by
  unfold multiselectFilter
  split
  · exact List.Sublist.refl _
  · exact List.filter_sublist _

theorem multiselectFilter_eq_self {sel : List String} {f : Record → String}
    {l : List Record} (h : ∀ x ∈ l, f x ∈ sel) :
    multiselectFilter sel f l = l := by
  unfold multiselectFilter
  split
  · rfl
  · exact List.filter_eq_self.mpr fun x hx => decide_eq_true (h x hx)

theorem rangeFilter_subset {α : Type} [LinearOrder α] {f : Record → α}
    {lo hi lo' hi' : α} {l l' : List Record}
    (hl : ∀ x ∈ l', x ∈ l) (hlo : lo ≤ lo') (hhi : hi' ≤ hi) :
    ∀ x ∈ rangeFilter f lo' hi' l', x ∈ rangeFilter f lo hi l := by
  intro x hx
  rw [mem_rangeFilter] at hx ⊢
  exact ⟨hl x hx.1, le_trans hlo hx.2.1, le_trans hx.2.2 hhi⟩

theorem multiselectFilter_subset {sel sel' : List String} {f : Record → String}
    {l l' : List Record}
    (hl : ∀ x ∈ l', x ∈ l) (hsel : ∀ a ∈ sel', a ∈ sel) (hne : sel' ≠ []) :
    ∀ x ∈ multiselectFilter sel' f l', x ∈ multiselectFilter sel f l := by
  intro x hx
  rw [mem_multiselectFilter] at hx ⊢
  rcases hx with ⟨hxl, hcase | hmem⟩
  · exact absurd hcase hne
  · exact ⟨hl x hxl, Or.inr (hsel _ hmem)⟩

/-! ### The pipeline prefixes are sublists of the dataframe -/

theorem viewAfterDate_sublist {df : List Record} {s : FilterState} :
    (viewAfterDate df s).Sublist df :=
  rangeFilter_sublist

theorem viewAfterRegion_sublist {df : List Record} {s : FilterState} :
    (viewAfterRegion df s).Sublist df :=
  List.Sublist.trans multiselectFilter_sublist viewAfterDate_sublist

theorem viewAfterCategory_sublist {df : List Record} {s : FilterState} :
    (viewAfterCategory df s).Sublist df :=
  List.Sublist.trans multiselectFilter_sublist viewAfterRegion_sublist

theorem viewAfterSubCategory_sublist {df : List Record} {s : FilterState} :
    (viewAfterSubCategory df s).Sublist df :=
  List.Sublist.trans multiselectFilter_sublist viewAfterCategory_sublist

theorem viewAfterSegment_sublist {df : List Record} {s : FilterState} :
    (viewAfterSegment df s).Sublist df :=
  List.Sublist.trans multiselectFilter_sublist viewAfterSubCategory_sublist

theorem viewAfterShipMode_sublist {df : List Record} {s : FilterState} :
    (viewAfterShipMode df s).Sublist df :=
  List.Sublist.trans multiselectFilter_sublist viewAfterSegment_sublist

theorem viewAfterState_sublist {df : List Record} {s : FilterState} :
    (viewAfterState df s).Sublist df :=
  List.Sublist.trans multiselectFilter_sublist viewAfterShipMode_sublist

theorem viewAfterCity_sublist {df : List Record} {s : FilterState} :
    (viewAfterCity df s).Sublist df :=
  List.Sublist.trans multiselectFilter_sublist viewAfterState_sublist

theorem viewAfterSales_sublist {df : List Record} {s : FilterState} :
    (viewAfterSales df s).Sublist df :=
  List.Sublist.trans rangeFilter_sublist viewAfterCity_sublist

theorem viewAfterQuantity_sublist {df : List Record} {s : FilterState} :
    (viewAfterQuantity df s).Sublist df :=
  List.Sublist.trans rangeFilter_sublist viewAfterSales_sublist

theorem viewAfterDiscount_sublist {df : List Record} {s : FilterState} :
    (viewAfterDiscount df s).Sublist df :=
  List.Sublist.trans rangeFilter_sublist viewAfterQuantity_sublist

theorem applyFilters_sublist {df : List Record} {s : FilterState} :
    (applyFilters df s).Sublist df :=
  List.Sublist.trans rangeFilter_sublist viewAfterDiscount_sublist

/-! ### Identity-law helpers -/

theorem rangeFilter_colBounds_eq_self {α : Type} [LinearOrder α]
    (f : Record → α) (d d' : α) {df l : List Record}
    (h : ∀ x ∈ l, x ∈ df) :
    rangeFilter f ((colMin (df.map f)).getD d) ((colMax (df.map f)).getD d') l = l :=
  rangeFilter_eq_self fun x hx =>
    ⟨colMin_getD_le d _ (List.mem_map_of_mem f (h x hx)),
     le_colMax_getD d' _ (List.mem_map_of_mem f (h x hx))⟩

theorem multiselectFilter_pdUnique_eq_self (f : Record → String)
    {df l : List Record} (h : ∀ x ∈ l, x ∈ df) :
    multiselectFilter (pdUnique (df.map f)) f l = l :=
  multiselectFilter_eq_self fun x hx =>
    mem_pdUnique.mpr (List.mem_map_of_mem f (h x hx))

theorem applyFilters_fullState (df : List Record) :
    applyFilters df (fullState df) = df := by
  have h1 : viewAfterDate df (fullState df) = df :=
    rangeFilter_colBounds_eq_self Record.order_date 0 0 (fun _ h => h)
  have h2 : viewAfterRegion df (fullState df) = df := by
    unfold viewAfterRegion
    rw [h1]
    exact multiselectFilter_pdUnique_eq_self Record.region (fun _ h => h)
  have h3 : viewAfterCategory df (fullState df) = df := by
    unfold viewAfterCategory
    rw [h2]
    exact multiselectFilter_pdUnique_eq_self Record.category (fun _ h => h)
  have h4 : viewAfterSubCategory df (fullState df) = df := by
    unfold viewAfterSubCategory
    rw [h3]
    exact multiselectFilter_pdUnique_eq_self Record.sub_category (fun _ h => h)
  have h5 : viewAfterSegment df (fullState df) = df := by
    unfold viewAfterSegment
    rw [h4]
    exact multiselectFilter_pdUnique_eq_self Record.segment (fun _ h => h)
  have h6 : viewAfterShipMode df (fullState df) = df := by
    unfold viewAfterShipMode
    rw [h5]
    exact multiselectFilter_pdUnique_eq_self Record.ship_mode (fun _ h => h)
  have h7 : viewAfterState df (fullState df) = df := by
    unfold viewAfterState
    rw [h6]
    exact multiselectFilter_pdUnique_eq_self Record.state (fun _ h => h)
  have h8 : viewAfterCity df (fullState df) = df := by
    unfold viewAfterCity
    rw [h7]
    exact multiselectFilter_pdUnique_eq_self Record.city (fun _ h => h)
  have h9 : viewAfterSales df (fullState df) = df := by
    unfold viewAfterSales
    rw [h8]
    exact rangeFilter_colBounds_eq_self Record.sales 0 0 (fun _ h => h)
  have h10 : viewAfterQuantity df (fullState df) = df := by
    unfold viewAfterQuantity
    rw [h9]
    exact rangeFilter_colBounds_eq_self Record.quantity 0 0 (fun _ h => h)
  have h11 : viewAfterDiscount df (fullState df) = df := by
    unfold viewAfterDiscount
    rw [h10]
    exact rangeFilter_colBounds_eq_self Record.discount 0 0 (fun _ h => h)
  unfold applyFilters
  rw [h11]
  exact rangeFilter_colBounds_eq_self Record.profit 0 0 (fun _ h => h)

/-! ### Monotonicity of the pipeline in the filter state -/

theorem applyFilters_mono {df : List Record} {s' s : FilterState}
    (hn : Narrower s' s) (hne : AllSelectionsNonempty s') :
    ∀ x ∈ applyFilters df s', x ∈ applyFilters df s := by
  obtain ⟨hdate, hreg, hcat, hsub, hseg, hship, hstate, hcity,
    hsal, hqty, hdisc, hprof⟩ := hn
  obtain ⟨nreg, ncat, nsub, nseg, nship, nstate, ncity⟩ := hne
  have g1 : ∀ x ∈ viewAfterDate df s', x ∈ viewAfterDate df s :=
    rangeFilter_subset (fun _ h => h) hdate.1 hdate.2
  have g2 : ∀ x ∈ viewAfterRegion df s', x ∈ viewAfterRegion df s :=
    multiselectFilter_subset g1 hreg nreg
  have g3 : ∀ x ∈ viewAfterCategory df s', x ∈ viewAfterCategory df s :=
    multiselectFilter_subset g2 hcat ncat
  have g4 : ∀ x ∈ viewAfterSubCategory df s', x ∈ viewAfterSubCategory df s :=
    multiselectFilter_subset g3 hsub nsub
  have g5 : ∀ x ∈ viewAfterSegment df s', x ∈ viewAfterSegment df s :=
    multiselectFilter_subset g4 hseg nseg
  have g6 : ∀ x ∈ viewAfterShipMode df s', x ∈ viewAfterShipMode df s :=
    multiselectFilter_subset g5 hship nship
  have g7 : ∀ x ∈ viewAfterState df s', x ∈ viewAfterState df s :=
    multiselectFilter_subset g6 hstate nstate
  have g8 : ∀ x ∈ viewAfterCity df s', x ∈ viewAfterCity df s :=
    multiselectFilter_subset g7 hcity ncity
  have g9 : ∀ x ∈ viewAfterSales df s', x ∈ viewAfterSales df s :=
    rangeFilter_subset g8 hsal.1 hsal.2
  have g10 : ∀ x ∈ viewAfterQuantity df s', x ∈ viewAfterQuantity df s :=
    rangeFilter_subset g9 hqty.1 hqty.2
  have g11 : ∀ x ∈ viewAfterDiscount df s', x ∈ viewAfterDiscount df s :=
    rangeFilter_subset g10 hdisc.1 hdisc.2
  exact rangeFilter_subset g11 hprof.1 hprof.2

/-! ### Group-by sums partition the total -/

theorem ratSum_map_add {α : Type} (l : List α) (f g : α → Rat) :
    (l.map fun x => f x + g x).sum = (l.map f).sum + (l.map g).sum := by
  induction l with
  | nil => simp
  | cons a t ih =>
    simp only [List.map_cons, List.sum_cons, ih]
    ring

theorem sum_map_ite_eq_zero {keys : List String} {a : String}
    (h : a ∉ keys) (c : Rat) :
    (keys.map fun k => if a = k then c else 0).sum = 0 := by
  induction keys with
  | nil => simp
  | cons b t ih =>
    simp only [List.mem_cons, not_or] at h
    simp [h.1, ih h.2]

theorem sum_map_ite_eq {keys : List String} (hnd : keys.Nodup) {a : String}
    (ha : a ∈ keys) (c : Rat) :
    (keys.map fun k => if a = k then c else 0).sum = c := by
  induction keys with
  | nil => cases ha
  | cons b t ih =>
    rw [List.nodup_cons] at hnd
    rcases List.mem_cons.mp ha with rfl | hat
    · simp [sum_map_ite_eq_zero hnd.1 c]
    · have hab : a ≠ b := fun h => hnd.1 (h ▸ hat)
      simp [hab, ih hnd.2 hat]

theorem sum_filter_partition (view : List Record) (key : Record → String)
    (val : Record → Rat) (keys : List String) (hnd : keys.Nodup)
    (hcov : ∀ r ∈ view, key r ∈ keys) :
    (keys.map fun k =>
      ((view.filter fun r => decide (key r = k)).map val).sum).sum =
      (view.map val).sum := by
  induction view with
  | nil => simp
  | cons r rest ih =>
    have hstep : ∀ k : String,
        (((r :: rest).filter fun x => decide (key x = k)).map val).sum =
          (if key r = k then val r else 0) +
            ((rest.filter fun x => decide (key x = k)).map val).sum := by
      intro k
      by_cases h : key r = k
      · simp [List.filter_cons, h]
      · simp [List.filter_cons, h]
    calc (keys.map fun k =>
            (((r :: rest).filter fun x => decide (key x = k)).map val).sum).sum
        = (keys.map fun k => (if key r = k then val r else 0) +
            ((rest.filter fun x => decide (key x = k)).map val).sum).sum := by
          simp only [hstep]
      _ = (keys.map fun k => if key r = k then val r else 0).sum +
            (keys.map fun k =>
              ((rest.filter fun x => decide (key x = k)).map val).sum).sum :=
          ratSum_map_add keys _ _
      _ = val r + (rest.map val).sum := by
          rw [sum_map_ite_eq hnd (hcov r (List.mem_cons_self r rest)),
            ih fun x hx => hcov x (List.mem_cons_of_mem r hx)]
      _ = ((r :: rest).map val).sum := by simp

theorem sum_groupBySum (view : List Record) (key : Record → String)
    (val : Record → Rat) :
    ((groupBySum view key val).map Prod.snd).sum = (view.map val).sum := by
  unfold groupBySum
  rw [List.map_map]
  have hperm :
      (List.insertionSort (fun a b => strLe a b = true)
        (pdUnique (view.map key))).Perm (pdUnique (view.map key)) :=
    List.perm_insertionSort _ _
  rw [List.Perm.sum_eq (List.Perm.map _ hperm)]
  exact sum_filter_partition view key val _ nodup_pdUnique
    fun r hr => mem_pdUnique.mpr (List.mem_map_of_mem key hr)

/-! ### The claims -/

/-- C1 counterexample: with the Region multiselect empty and every other
filter accepting the one record, the filtered view still contains that
record — not zero records as the claim states.  The `if selected_regions:`
guard (line 91) skips the `isin` filter on an empty selection. -/
theorem C1_counterexample :
    sRegionEmpty.regions = [] ∧
    applyFilters [baseRecord] sRegionEmpty = [baseRecord] ∧
    applyFilters [baseRecord] sRegionEmpty ≠ [] := by
  refine ⟨rfl, by decide, by decide⟩

/-- C1 (amended): an empty selected set for a categorical dimension leaves
that dimension unconstrained — the pipeline result equals the pipeline with
that dimension's stage deleted (inclusion-by-omission, not exclusion). -/
theorem C1_empty_region_skips_filter (df : List Record) (s : FilterState)
    (h : s.regions = []) : applyFilters df s = applyFiltersNoRegion df s := by
  unfold applyFilters applyFiltersNoRegion viewAfterDiscount viewAfterQuantity
    viewAfterSales viewAfterCity viewAfterState viewAfterShipMode
    viewAfterSegment viewAfterSubCategory viewAfterCategory viewAfterRegion
    viewAfterDate
  rw [h, multiselectFilter_nil]

/-- Witness for C1: the amended law applied at a concrete dataset and a
concrete filter state with an empty Region selection. -/
theorem C1_witness :
    sRegionEmpty.regions = [] ∧
    applyFilters [baseRecord] sRegionEmpty =
      applyFiltersNoRegion [baseRecord] sRegionEmpty :=
  ⟨rfl, C1_empty_region_skips_filter [baseRecord] sRegionEmpty rfl⟩

/-- C2: the identity filter law — with every multiselect equal to its full
option set and every date/numeric range equal to the dataset's min/max, the
pipeline returns the dataset unchanged. -/
theorem C2_identity_filter_law (df : List Record) :
    applyFilters df (fullState df) = df :=
  applyFilters_fullState df

/-- C3 counterexample: `sRegionEmpty` is narrower than `sRegionWest`
(an empty selected set is a subset of {West}, all other components equal),
yet its filtered view is not a subset of the wider state's view: the empty
Region selection skips the filter and keeps `baseRecord`, which {West}
excludes.  Monotonicity fails as claimed. -/
theorem C3_counterexample :
    Narrower sRegionEmpty sRegionWest ∧
    baseRecord ∈ applyFilters [baseRecord] sRegionEmpty ∧
    baseRecord ∉ applyFilters [baseRecord] sRegionWest := by
  refine ⟨by decide, by decide, by decide⟩

/-- C3 (amended): the filtered view is always a subset of the dataset; and
a narrower filter state yields a subset of the wider state's view provided
every multiselect of the narrower state is nonempty (an empty selection is
skipped by the code, so it widens rather than narrows). -/
theorem C3_subset_and_monotone (df : List Record) (s' s : FilterState)
    (hn : Narrower s' s) (hne : AllSelectionsNonempty s') :
    (∀ t : FilterState, ∀ x ∈ applyFilters df t, x ∈ df) ∧
    (∀ x ∈ applyFilters df s', x ∈ applyFilters df s) :=
  ⟨fun _ _ hx => applyFilters_sublist.subset hx, applyFilters_mono hn hne⟩

/-- Witness for C3: the amended statement applied with `s' = s = sRegionEast`
(reflexively narrower, all selections nonempty) on a concrete dataset. -/
theorem C3_witness :
    Narrower sRegionEast sRegionEast ∧ AllSelectionsNonempty sRegionEast ∧
    ((∀ t : FilterState, ∀ x ∈ applyFilters [baseRecord] t, x ∈ [baseRecord]) ∧
     (∀ x ∈ applyFilters [baseRecord] sRegionEast,
        x ∈ applyFilters [baseRecord] sRegionEast)) :=
  ⟨by decide, by decide,
    C3_subset_and_monotone [baseRecord] sRegionEast sRegionEast
      (by decide) (by decide)⟩

/-- C4: the per-category sums of the sales-by-category table add up to the
`total_sales` KPI of the same view. -/
theorem C4_category_sums_total (view : List Record) :
    ((sales_by_category view).map Prod.snd).sum = total_sales view := by
  unfold sales_by_category sortValuesDesc total_sales
  rw [List.Perm.sum_eq (List.Perm.map _ (List.perm_insertionSort _ _))]
  exact sum_groupBySum view Record.category Record.sales

/-- C5 counterexample: with an empty Category selection the category filter
is skipped, so the Sub-Category option set still contains "Chairs" although
no record at all has its category in the (empty) selected set — the
"only sub-categories of records whose category is in C" part fails. -/
theorem C5_counterexample :
    sCatEmpty.categories = [] ∧
    "Chairs" ∈ availableSubCategories [baseRecord] sCatEmpty ∧
    ¬ ∃ r ∈ ([baseRecord] : List Record),
        r.category ∈ sCatEmpty.categories ∧ r.sub_category = "Chairs" := by
  refine ⟨rfl, by decide, by decide⟩

/-- C5 (amended): the Sub-Category option set is exactly the set of
distinct sub-categories of the view after the filters resolved before it
(date, region, category); and — provided the governing selection is
nonempty — it contains only sub-categories of records whose category is
selected, and likewise City options only cities of records whose state is
selected. -/
theorem C5_cascading_options (df : List Record) (s : FilterState)
    (hcat : s.categories ≠ []) (hst : s.states ≠ []) :
    (∀ x, x ∈ availableSubCategories df s ↔
        ∃ r ∈ viewAfterCategory df s, r.sub_category = x) ∧
    (∀ x ∈ availableSubCategories df s,
        ∃ r ∈ df, r.category ∈ s.categories ∧ r.sub_category = x) ∧
    (∀ x ∈ availableCities df s,
        ∃ r ∈ df, r.state ∈ s.states ∧ r.city = x) := by
  refine ⟨?_, ?_, ?_⟩
  · intro x
    simp [availableSubCategories, mem_pdUnique, List.mem_map]
  · intro x hx
    have hx' : x ∈ (viewAfterCategory df s).map Record.sub_category :=
      mem_pdUnique.mp hx
    rcases List.mem_map.mp hx' with ⟨r, hr, hrx⟩
    have hr' := mem_multiselectFilter.mp hr
    rcases hr'.2 with hnil | hmem
    · exact absurd hnil hcat
    · exact ⟨r, viewAfterRegion_sublist.subset hr'.1, hmem, hrx⟩
  · intro x hx
    have hx' : x ∈ (viewAfterState df s).map Record.city :=
      mem_pdUnique.mp hx
    rcases List.mem_map.mp hx' with ⟨r, hr, hrx⟩
    have hr' := mem_multiselectFilter.mp hr
    rcases hr'.2 with hnil | hmem
    · exact absurd hnil hst
    · exact ⟨r, viewAfterShipMode_sublist.subset hr'.1, hmem, hrx⟩

/-- Witness for C5: the amended statement at a concrete dataset and a
filter state with nonempty Category and State selections. -/
theorem C5_witness :
    sRegionEast.categories ≠ [] ∧ sRegionEast.states ≠ [] ∧
    ((∀ x, x ∈ availableSubCategories [baseRecord] sRegionEast ↔
        ∃ r ∈ viewAfterCategory [baseRecord] sRegionEast, r.sub_category = x) ∧
     (∀ x ∈ availableSubCategories [baseRecord] sRegionEast,
        ∃ r ∈ [baseRecord], r.category ∈ sRegionEast.categories ∧
          r.sub_category = x) ∧
     (∀ x ∈ availableCities [baseRecord] sRegionEast,
        ∃ r ∈ [baseRecord], r.state ∈ sRegionEast.states ∧ r.city = x)) :=
  ⟨by decide, by decide,
    C5_cascading_options [baseRecord] sRegionEast (by decide) (by decide)⟩

/-- C6: cleaning keeps exactly the rows whose two date columns both parse
(dropping the others entirely), and every surviving row is its raw row with
only the two date columns replaced by their parsed values — no defaults are
substituted. -/
theorem C6_load_drops_unparseable (parse : String → Option Date)
    (rows : List RawRecord) :
    load_data parse rows =
      coerceDates parse (rows.filter fun r =>
        (parse r.order_date_raw).isSome && (parse r.ship_date_raw).isSome) ∧
    ∀ c ∈ load_data parse rows, ∃ r ∈ rows,
      c = coerceRow parse r ∧
      (parse r.order_date_raw).isSome ∧ (parse r.ship_date_raw).isSome := by
  have hcomm : load_data parse rows =
      coerceDates parse (rows.filter fun r =>
        (parse r.order_date_raw).isSome && (parse r.ship_date_raw).isSome) := by
    unfold load_data dropnaDates coerceDates
    rw [List.filter_map]
    rfl
  refine ⟨hcomm, fun c hc => ?_⟩
  rw [hcomm] at hc
  rcases List.mem_map.mp hc with ⟨r, hr, hrc⟩
  have hr' := List.mem_filter.mp hr
  rw [Bool.and_eq_true] at hr'
  exact ⟨r, hr'.1, hrc.symm, hr'.2.1, hr'.2.2⟩

/-- C7 counterexample: a missing file and a malformed input produce the
same returned value (`None`), so the two failure kinds are not
distinguishable in the result; moreover the missing-file failure shows no
error message at all. -/
theorem C7_counterexample :
    (load_data_full (fun _ => none) LoadSource.missing).result =
      (load_data_full (fun _ => none) (LoadSource.malformed "bad")).result ∧
    (load_data_full (fun _ => none) LoadSource.missing).errorShown = none :=
  ⟨rfl, rfl⟩

/-- C7 (amended): both failure kinds return `None` — they are not
distinguishable in the returned result; a malformed input is reported via
an error message, a missing file is silently swallowed; a successful read
returns the cleaned rows. -/
theorem C7_failure_modes (parse : String → Option Date) (msg : String) :
    (load_data_full parse LoadSource.missing).result = none ∧
    (load_data_full parse (LoadSource.malformed msg)).result = none ∧
    (load_data_full parse (LoadSource.malformed msg)).errorShown =
      some ("Error loading data: " ++ msg ++
        ". Please check the file path and format.") ∧
    (load_data_full parse LoadSource.missing).errorShown = none ∧
    ∀ rows : List RawRecord,
      (load_data_full parse (LoadSource.ok rows)).result =
        some (load_data parse rows) :=
  ⟨rfl, rfl, rfl, rfl, fun _ => rfl⟩

/-- C8: the three KPIs are the sums of the Sales, Profit and Quantity
columns over the filtered view, and each is zero on an empty view. -/
theorem C8_kpis (view : List Record) :
    total_sales view = view.foldr (fun r acc => r.sales + acc) 0 ∧
    total_profit view = view.foldr (fun r acc => r.profit + acc) 0 ∧
    total_quantity view = view.foldr (fun r acc => r.quantity + acc) 0 ∧
    total_sales [] = 0 ∧ total_profit [] = 0 ∧ total_quantity [] = 0 := by
  have hs : ∀ l : List Record,
      total_sales l = l.foldr (fun r acc => r.sales + acc) 0 := by
    intro l
    induction l with
    | nil => rfl
    | cons a t ih => simp [total_sales, List.sum_cons] at ih ⊢; simp [ih]
  have hp : ∀ l : List Record,
      total_profit l = l.foldr (fun r acc => r.profit + acc) 0 := by
    intro l
    induction l with
    | nil => rfl
    | cons a t ih => simp [total_profit, List.sum_cons] at ih ⊢; simp [ih]
  have hq : ∀ l : List Record,
      total_quantity l = l.foldr (fun r acc => r.quantity + acc) 0 := by
    intro l
    induction l with
    | nil => rfl
    | cons a t ih => simp [total_quantity, List.sum_cons] at ih ⊢; simp [ih]
  exact ⟨hs view, hp view, hq view, rfl, rfl, rfl⟩

/-- C10: every pipeline stage is a `filter` (or the identity), so the final
view is an order-preserving subsequence of the dataset, and no record
occurrence is duplicated. -/
theorem C10_order_preserving_subsequence (df : List Record) (s : FilterState) :
    (applyFilters df s).Sublist df ∧
    ∀ r : Record, (applyFilters df s).count r ≤ df.count r :=
  ⟨applyFilters_sublist, fun r => applyFilters_sublist.count_le r⟩

/-- C9: the sales-by-state chart input is the grouped state/sales table
sorted descending by summed sales and truncated to 20 rows; with 25 states
of pairwise distinct sums it holds exactly the 20 highest-sum states in
strictly descending order (every dropped state sums below every kept one). -/
theorem C9_top20_states (view : List Record)
    (h25 : (groupBySum view Record.state Record.sales).length = 25)
    (hnd : ((groupBySum view Record.state Record.sales).map Prod.snd).Nodup) :
    (sales_by_state_top20 view).length = 20 ∧
    List.Chain' (fun a b => b.2 < a.2) (sales_by_state_top20 view) ∧
    (∀ p ∈ sales_by_state_top20 view,
      p ∈ groupBySum view Record.state Record.sales) ∧
    (∀ q ∈ groupBySum view Record.state Record.sales,
      q ∉ sales_by_state_top20 view →
      ∀ p ∈ sales_by_state_top20 view, q.2 < p.2) := by
  have hperm : (sales_by_state view).Perm
      (groupBySum view Record.state Record.sales) :=
    List.perm_insertionSort _ _
  have hsorted : (sales_by_state view).Pairwise bySalesDesc :=
    List.sorted_insertionSort bySalesDesc _
  have hlen : (sales_by_state view).length = 25 := by
    rw [hperm.length_eq, h25]
  have hnd' : ((sales_by_state view).map Prod.snd).Nodup :=
    ((hperm.map Prod.snd).nodup_iff).mpr hnd
  have hlen20 : (sales_by_state_top20 view).length = 20 := by
    unfold sales_by_state_top20
    rw [List.length_take, hlen]
    decide
  have htake : (sales_by_state_top20 view).Sublist (sales_by_state view) :=
    List.take_sublist _ _
  have hsubset : ∀ p ∈ sales_by_state_top20 view,
      p ∈ groupBySum view Record.state Record.sales :=
    fun p hp => hperm.mem_iff.mp (htake.subset hp)
  have hsorted_top : (sales_by_state_top20 view).Pairwise bySalesDesc :=
    hsorted.sublist htake
  have hnd_top : ((sales_by_state_top20 view).map Prod.snd).Nodup :=
    hnd'.sublist (htake.map Prod.snd)
  have hne_top : (sales_by_state_top20 view).Pairwise
      (fun a b => a.2 ≠ b.2) :=
    List.pairwise_map.mp hnd_top
  have hstrict : (sales_by_state_top20 view).Pairwise
      (fun a b => b.2 < a.2) :=
    (hsorted_top.and hne_top).imp fun h => lt_of_le_of_ne h.1 (Ne.symm h.2)
  have hcross : ∀ p ∈ sales_by_state_top20 view,
      ∀ q ∈ (sales_by_state view).drop 20, bySalesDesc p q := by
    have hpw : ((sales_by_state view).take 20 ++
        (sales_by_state view).drop 20).Pairwise bySalesDesc := by
      rw [List.take_append_drop]
      exact hsorted
    exact fun p hp q hq => (List.pairwise_append.mp hpw).2.2 p hp q hq
  refine ⟨hlen20, hstrict.chain', hsubset, ?_⟩
  intro q hq hqnot p hp
  have hqs : q ∈ sales_by_state view := hperm.mem_iff.mpr hq
  have hqsplit : q ∈ (sales_by_state view).take 20 ++
      (sales_by_state view).drop 20 := by
    rw [List.take_append_drop]
    exact hqs
  have hqd : q ∈ (sales_by_state view).drop 20 := by
    rcases List.mem_append.mp hqsplit with h | h
    · exact absurd h hqnot
    · exact h
  have hle : q.2 ≤ p.2 := hcross p hp q hqd
  have hps : p ∈ sales_by_state view := htake.subset hp
  refine lt_of_le_of_ne hle fun heq => ?_
  have hqp : q = p := List.inj_on_of_nodup_map hnd' hqs hps heq
  exact hqnot (hqp ▸ hp)

/-- Witness for C9: the top-20 truncation law applied to a concrete view
with 25 distinct states and distinct sales sums. -/
theorem C9_witness :
    (groupBySum view25 Record.state Record.sales).length = 25 ∧
    ((groupBySum view25 Record.state Record.sales).map Prod.snd).Nodup ∧
    ((sales_by_state_top20 view25).length = 20 ∧
     List.Chain' (fun a b => b.2 < a.2) (sales_by_state_top20 view25) ∧
     (∀ p ∈ sales_by_state_top20 view25,
        p ∈ groupBySum view25 Record.state Record.sales) ∧
     (∀ q ∈ groupBySum view25 Record.state Record.sales,
        q ∉ sales_by_state_top20 view25 →
        ∀ p ∈ sales_by_state_top20 view25, q.2 < p.2)) :=
  ⟨by decide,
   by simp +decide [groupBySum, view25, stateRec, baseRecord, pdUnique,
     pdUniqueAux, strLe, strLeAux, List.insertionSort, List.orderedInsert],
   C9_top20_states view25 (by decide)
     (by simp +decide [groupBySum, view25, stateRec, baseRecord, pdUnique,
       pdUniqueAux, strLe, strLeAux, List.insertionSort, List.orderedInsert])⟩

end SalesDashboard

